import Mathlib

/-!
A shallow embedding of the progressive page-rendering and narration core of
the Kindle Book reader (src/app.js), together with theorems settling the
frozen claims about it.

Modelling conventions.  The module-level mutable variables of app.js become
the fields of the structure St; every event handler and command of the
source becomes an explicit state-transition function on St.  JS Map objects
become association lists where the most recent set shadows older entries.
JS strings become lists of characters, so that the character indices
reported by speech boundary events are plain element indices.  The two
external collaborators that app.js consumes through pdfDoc are parameters:
a rasterizing source (rsrc, for renderPage) and a text source (tsrc, for
extractPageText), each mapping a document handle and page number to an
optional result, where none models a collaborator failure.  Asynchronous
completion of a render is modelled by splitting renderPage into its
synchronous prefix (issueRender) and its continuation (completeRender), so
that the interleavings possible in the event loop can be stated.
-/

namespace KindleBook

/-- JS strings as lists of characters; boundary-event charIndex values index elements. -/
abbrev JSStr := List Char

/-- Configuration constant PRELOAD_PAGES from app.js. -/
def PRELOAD_PAGES : Nat := 3

/-- Settle delay in ms used by the empty-remainder branch of startTTSForPage. -/
def SETTLE_DELAY_EMPTY : Nat := 600

/-- Settle delay in ms used by the utterance end handler before restarting narration. -/
def SETTLE_DELAY_END : Nat := 650

/-- Association-list lookup, modelling JS Map.get: the most recent set shadows older entries. -/
def lookupL {α : Type} : Nat → List (Nat × α) → Option α
  | _, [] => none
  | k, (q, v) :: rest => if k = q then some v else lookupL k rest

/-- The module-level mutable state of app.js.  speechSupported models the
presence of speechSynthesis in the window; pdfDoc holds the handle of the
open document; pageFlip records whether an animator instance is alive and
flipIndex its current zero-based index; renderedPages and pageTextCache are
the two caches; speaking, paused, engPaused (the paused flag of the speech
engine itself), speakIndex, uttText and uttStartIndex are the TTS state;
cancels and fetches count engine cancel calls and document-source fetches;
pendingStart records a setTimeout-scheduled narration restart as
(page, offset, delay in ms). -/
structure St where
  speechSupported : Bool
  pdfDoc : Option Nat
  pageFlip : Bool
  flipIndex : Nat
  totalPages : Nat
  currentPage : Nat
  renderedPages : List (Nat × Nat)
  renderQueue : List Nat
  pageTextCache : List (Nat × JSStr)
  speaking : Bool
  paused : Bool
  engPaused : Bool
  speakIndex : Nat
  uttText : Option JSStr
  uttStartIndex : Nat
  cancels : Nat
  fetches : Nat
  pendingStart : Option (Nat × Nat × Nat)
  deriving DecidableEq

/-- Modelled from the spec: the page-turn animator collaborator (the PageFlip
library itself is not part of src); flipNext advances one step and is a
no-op on the last page. -/
def flipNext (s : St) : St :=
  if s.flipIndex + 1 < s.totalPages then {s with flipIndex := s.flipIndex + 1} else s

/-- Modelled from the spec: flipPrevious of the animator collaborator; a no-op on the first page. -/
def flipPrev (s : St) : St :=
  if 0 < s.flipIndex then {s with flipIndex := s.flipIndex - 1} else s

/-- Modelled from the spec: flipTo of the animator collaborator, driving it to a given index. -/
def flipTo (idx : Nat) (s : St) : St := {s with flipIndex := idx}

/-- A render request that is in flight: renderPage captures the current
document handle synchronously, so the request remembers which document it
was issued for, but the code stamps no generation on it. -/
structure PendReq where
  doc : Nat
  page : Nat
  deriving DecidableEq

/-- The synchronous prefix of renderPage (app.js lines 574-581): return
early when the page is cached; otherwise read the current pdfDoc and start
a fetch.  A null pdfDoc makes getPage throw, which the catch turns into a
null result with no fetch. -/
def issueRender (p : Nat) (s : St) : Option PendReq × St :=
  match lookupL p s.renderedPages with
  | some _ => (none, s)
  | none =>
    match s.pdfDoc with
    | none => (none, s)
    | some d => (some { doc := d, page := p }, {s with fetches := s.fetches + 1})

/-- The asynchronous continuation of renderPage (app.js lines 589-607): on a
successful fetch the artifact is stored with renderedPages.set, with no
check of which document is now open; on failure nothing is cached. -/
def completeRender (rsrc : Nat → Nat → Option Nat) (r : PendReq) (s : St) : St :=
  match rsrc r.doc r.page with
  | some img => {s with renderedPages := (r.page, img) :: s.renderedPages}
  | none => s

/-- renderPage of app.js (lines 574-612) run to completion with no
interleaving: issue, then complete, returning the dataURL or null. -/
def renderPage (rsrc : Nat → Nat → Option Nat) (p : Nat) (s : St) : Option Nat × St :=
  match issueRender p s with
  | (none, s1) => (lookupL p s1.renderedPages, s1)
  | (some r, s1) =>
    let s2 := completeRender rsrc r s1
    (lookupL p s2.renderedPages, s2)

/-- The pages that ensurePagesRendered (app.js lines 630-642) selects: the
neighborhood of centerPage clamped to the document, minus cached pages. -/
def pagesToRender (centerPage : Nat) (s : St) : List Nat :=
  (List.range' (max 1 (centerPage - 1))
      (min s.totalPages (centerPage + 1) + 1 - max 1 (centerPage - 1))).filter
    (fun i => (lookupL i s.renderedPages).isNone)

/-- ensurePagesRendered of app.js: render every missing neighborhood page.
The source awaits them with Promise.all; since each renderPage only adds
its own page to the cache, the sequential fold gives the same final state. -/
def ensurePagesRendered (rsrc : Nat → Nat → Option Nat) (centerPage : Nat) (s : St) : St :=
  (pagesToRender centerPage s).foldl (fun st q => (renderPage rsrc q st).2) s

/-- extractPageText of app.js (lines 688-704): serve from the text cache,
otherwise fetch from the document and cache the result; any failure
(including a null pdfDoc) yields the empty string and caches nothing. -/
def extractPageText (tsrc : Nat → Nat → Option JSStr) (p : Nat) (s : St) : JSStr × St :=
  match lookupL p s.pageTextCache with
  | some t => (t, s)
  | none =>
    match s.pdfDoc with
    | none => ([], s)
    | some d =>
      match tsrc d p with
      | some t => (t, {s with pageTextCache := (p, t) :: s.pageTextCache})
      | none => ([], s)

/-- startTTSForPage of app.js (lines 706-772): bail out when speech is
unsupported or the page has no text; when the remainder from startIndex is
empty, flip forward and schedule a restart on the next page; otherwise
cancel existing speech and start a new utterance over the remainder,
recording its start index for the boundary handler. -/
def startTTSForPage (tsrc : Nat → Nat → Option JSStr) (pageNum startIndex : Nat) (s : St) : St :=
  if s.speechSupported = false then s else
  match extractPageText tsrc pageNum s with
  | (text, s1) =>
    if text = [] then s1 else
    if text.drop startIndex = [] then
      (if pageNum < s1.totalPages ∧ s1.pageFlip = true then
        {flipNext s1 with pendingStart := some (pageNum + 1, 0, SETTLE_DELAY_EMPTY)}
      else s1)
    else
      {s1 with cancels := s1.cancels + 1,
               uttText := some (text.drop startIndex),
               uttStartIndex := startIndex,
               speaking := true, paused := false}

/-- The utterance onboundary handler (app.js lines 740-744): update
speakIndex to the start index of the utterance plus the reported character
index.  The JS guard (a word boundary, or a nonnegative charIndex) is kept
even though a natural charIndex always satisfies it. -/
def onBoundary (nameIsWord : Bool) (charIndex : Nat) (s : St) : St :=
  if nameIsWord = true ∨ 0 ≤ charIndex then
    {s with speakIndex := s.uttStartIndex + charIndex}
  else s

/-- The utterance onend handler (app.js lines 746-758), closed over the page
the utterance was started for: return when paused, else leave the speaking
state and, when the page is not the last and an animator exists, flip
forward and schedule narration of the next page from offset 0 after the
settle delay. -/
def onEnd (pageNum : Nat) (s : St) : St :=
  if s.paused = true then s else
  let s1 := {s with speaking := false, paused := false}
  if pageNum < s1.totalPages ∧ s1.pageFlip = true then
    {flipNext s1 with pendingStart := some (pageNum + 1, 0, SETTLE_DELAY_END)}
  else s1

/-- The utterance onerror handler (app.js lines 760-765). -/
def onError (s : St) : St := {s with speaking := false, paused := false}

/-- stopTTS of app.js (lines 794-802): a no-op without speech support,
otherwise cancel the engine and reset the narration state to idle with
offset 0. -/
def stopTTS (s : St) : St :=
  if s.speechSupported = false then s else
  {s with cancels := s.cancels + 1, speaking := false, paused := false, speakIndex := 0}

/-- toggleTTS of app.js (lines 774-792): from idle, start narration of the
current page at the saved speakIndex; from speaking, pause the engine; from
paused, resume the engine when it still holds the paused utterance, else
restart from the saved offset; either way leave paused false. -/
def toggleTTS (tsrc : Nat → Nat → Option JSStr) (s : St) : St :=
  if s.speechSupported = false then s
  else if s.speaking = false then startTTSForPage tsrc s.currentPage s.speakIndex s
  else if s.paused = false then {s with engPaused := true, paused := true}
  else if s.engPaused = true then {s with engPaused := false, paused := false}
  else {startTTSForPage tsrc s.currentPage s.speakIndex s with paused := false}

/-- Modelled from the spec: the speech engine may be unable to resume the
exact paused request (the restart-with-offset fallback of the spec exists
for this case); this environment step models the engine dropping its
paused utterance. -/
def engineLosesPause (s : St) : St := {s with engPaused := false}

/-- hideReader of app.js (lines 264-298): destroy the animator, stop TTS,
then clear all per-document state. -/
def hideReader (s : St) : St :=
  let s1 := if s.pageFlip = true then {s with pageFlip := false} else s
  let s2 := stopTTS s1
  {s2 with pdfDoc := none, renderedPages := [], renderQueue := [],
           pageTextCache := [], currentPage := 1, speaking := false,
           paused := false, uttText := none, speakIndex := 0}

/-- The synchronous state setup of openBook plus animator creation (app.js
lines 209-248 and 308-560): record the new document and its page count and
create a fresh animator at index 0.  Note that openBook clears no cache. -/
def openBookCore (d numPages : Nat) (s : St) : St :=
  {s with pdfDoc := some d, totalPages := numPages, pageFlip := true, flipIndex := 0}

/-- The flip event handler registered on the animator (app.js lines
497-510): clamp the reported index to a page number, ensure the
neighborhood is rendered, and when narration is active and not paused,
restart it for the new page from offset 0. -/
def onFlip (rsrc : Nat → Nat → Option Nat) (tsrc : Nat → Nat → Option JSStr)
    (idx : Nat) (s : St) : St :=
  let s1 := {s with currentPage := min s.totalPages (idx + 1)}
  let s2 := ensurePagesRendered rsrc s1.currentPage s1
  if s2.speaking = true ∧ s2.paused = false then startTTSForPage tsrc s2.currentPage 0 s2 else s2

/-- The next-page button handler (app.js lines 934 and 940): delegate to the animator when it exists. -/
def nextCmd (s : St) : St := if s.pageFlip = true then flipNext s else s

/-- The previous-page button handler (app.js lines 933 and 939): delegate to the animator when it exists. -/
def prevCmd (s : St) : St := if s.pageFlip = true then flipPrev s else s

/-- The page-range input handler (app.js lines 945-952), the goToPage of the
spec: flip to the requested page only when the animator exists and the
parsed value lies in range; out-of-range values are ignored, not clamped. -/
def pageRangeInput (n : Int) (s : St) : St :=
  if s.pageFlip = true ∧ 1 ≤ n ∧ n ≤ (s.totalPages : Int) then
    flipTo (max 0 (n - 1)).toNat s
  else s

/-- Modelled from the spec, for comparison with pageRangeInput: the goToPage
of the spec words clamps n to the interval from 1 to pageCount and, when
the animator exists, drives it to the clamped page. -/
def goToPageSpec (n : Int) (s : St) : St :=
  if s.pageFlip = true then flipTo ((max 1 (min n (s.totalPages : Int))).toNat - 1) s else s

/-- A base state: library view, nothing open, speech supported. -/
def st0 : St :=
  { speechSupported := true, pdfDoc := none, pageFlip := false, flipIndex := 0,
    totalPages := 0, currentPage := 1, renderedPages := [], renderQueue := [],
    pageTextCache := [], speaking := false, paused := false, engPaused := false,
    speakIndex := 0, uttText := none, uttStartIndex := 0, cancels := 0,
    fetches := 0, pendingStart := none }

/-- A concrete rasterizing source: document d renders page p to the artifact 100*d + p. -/
def srcN : Nat → Nat → Option Nat := fun d p => some (100 * d + p)

/-- A concrete text source used by witnesses. -/
def txtN : Nat → Nat → Option JSStr := fun _ _ => some ("abcdefghijklmnopqrst".toList)

/-- State for the C2 counterexample: a 10-page document open, animator on page 3. -/
def c2St : St :=
  { st0 with pdfDoc := some 1, pageFlip := true, totalPages := 10, flipIndex := 2, currentPage := 3 }

/-- State for the C3 counterexample: narration speaking page 2 of a 5-page document. -/
def c3St : St :=
  { st0 with pdfDoc := some 1, pageFlip := true, totalPages := 5, flipIndex := 1,
             currentPage := 2, speaking := true }

/-- C1 trace, step 1: open document 1 with 5 pages. -/
def c1Opened : St := openBookCore 1 5 st0

/-- C1 trace, step 2: a render of page 5 is issued and still in flight. -/
def c1Issue : Option PendReq × St := issueRender 5 c1Opened

/-- C1 trace, steps 3-5: the reader is closed, document 2 with 7 pages is
opened, and then the superseded render request of document 1 completes. -/
def c1Final : St :=
  completeRender srcN { doc := 1, page := 5 } (openBookCore 2 7 (hideReader c1Issue.2))

/-- Witness state for C4/C5/C9: a 10-page document open with empty caches. -/
def c4St : St := { st0 with pdfDoc := some 1, pageFlip := true, totalPages := 10 }

/-- Witness state for C6: speaking page 1 of a 10-page document, utterance started at offset 2. -/
def c6St : St :=
  { st0 with pdfDoc := some 1, pageFlip := true, totalPages := 10, currentPage := 1,
             speaking := true, uttStartIndex := 2,
             pageTextCache := [(1, "abcdefghij".toList)] }

/-- Witness state for C7/C8: narration paused mid-page with a nonzero offset. -/
def c7St : St :=
  { st0 with pdfDoc := some 1, pageFlip := true, totalPages := 10, currentPage := 4,
             speaking := true, paused := true, engPaused := true, speakIndex := 7, cancels := 3 }

/-- Witness state for C10: idle after a pause on another page, stale offset 12, now on page 2. -/
def c10St : St :=
  { st0 with pdfDoc := some 1, pageFlip := true, totalPages := 10, currentPage := 2,
             speakIndex := 12, pageTextCache := [(2, "abcdefghijklmnopqrst".toList)] }

/-- Witness state for C2: a one-page document, so both boundary no-ops are exercised. -/
def c2WSt : St :=
  { st0 with pdfDoc := some 1, pageFlip := true, totalPages := 1, flipIndex := 0, currentPage := 1 }

/-- Witness state for C3: unpaused narration on page 2 of 5 with the animator at index 1. -/
def c3WSt : St := c3St

/-- C1: the claim states that a render completion belonging to a closed
session is discarded and leaves the next session untouched.  The code has
no generation stamp: in the concrete trace below, a render of page 5 issued
for document 1 completes after the reader was closed and document 2 was
opened, and its artifact 105 (page 5 of document 1) lands in the page cache
of the new session, whose own source would produce 205.  This proves the
claim false at an explicit input. -/
theorem C1_counterexample :
    c1Issue.1 = some { doc := 1, page := 5 } ∧
    (openBookCore 2 7 (hideReader c1Issue.2)).renderedPages = [] ∧
    c1Final.pdfDoc = some 2 ∧
    lookupL 5 c1Final.renderedPages = some 105 ∧
    srcN 2 5 = some 205 := by decide

/-- C1 (amended): closing the session does cancel narration at the engine
level and clears all per-document state, but render completions carry no
generation check: whenever the fetch of a superseded request succeeds, its
artifact is stored in the current renderedPages cache whatever document is
now open. -/
theorem C1_amended_stale_applied (rsrc : Nat → Nat → Option Nat) (r : PendReq) (s : St)
    (a : Nat) (ha : rsrc r.doc r.page = some a) (hsup : s.speechSupported = true) :
    lookupL r.page (completeRender rsrc r s).renderedPages = some a ∧
    (hideReader s).cancels = s.cancels + 1 ∧
    (hideReader s).speaking = false ∧
    (hideReader s).renderedPages = [] := by
  refine ⟨?_, ?_, ?_, ?_⟩
  · simp [completeRender, ha, lookupL]
  · by_cases hpf : s.pageFlip = true <;> simp [hideReader, stopTTS, hpf, hsup]
  · by_cases hpf : s.pageFlip = true <;> simp [hideReader, stopTTS, hpf, hsup]
  · by_cases hpf : s.pageFlip = true <;> simp [hideReader, stopTTS, hpf, hsup]

/-- Witness for C1_amended_stale_applied at a concrete input. -/
theorem C1_amended_witness :
    (srcN 1 5 = some 105 ∧ c2St.speechSupported = true) ∧
    (lookupL 5 (completeRender srcN { doc := 1, page := 5 } c2St).renderedPages = some 105 ∧
     (hideReader c2St).cancels = c2St.cancels + 1 ∧
     (hideReader c2St).speaking = false ∧
     (hideReader c2St).renderedPages = []) :=
  ⟨by decide, C1_amended_stale_applied srcN { doc := 1, page := 5 } c2St 105 (by decide) (by decide)⟩

/-- C2: the claim states that goToPage clamps an out-of-range n and drives
the animator to the clamped page.  Concretely, with a 10-page document open
on page 3 (animator index 2), the input 15 should drive the animator to
page 10 (index 9); the code instead ignores it entirely, so the handler is
a no-op and differs from the clamping behavior. -/
theorem C2_counterexample :
    c2St.flipIndex = 2 ∧
    pageRangeInput 15 c2St = c2St ∧
    (pageRangeInput 15 c2St).flipIndex = 2 ∧
    (goToPageSpec 15 c2St).flipIndex = 9 := by decide

/-- C2 (amended): goToPage drives the animator to page n exactly when the
animator exists and n lies in the range from 1 to pageCount; an
out-of-range n is ignored as a no-op rather than clamped; and next and
previous at the boundaries are no-ops of the animator. -/
theorem C2_amended_goToPage (n : Int) (s : St) (hpf : s.pageFlip = true) :
    ((1 ≤ n ∧ n ≤ (s.totalPages : Int)) →
      (pageRangeInput n s).flipIndex = (n - 1).toNat) ∧
    (¬(1 ≤ n ∧ n ≤ (s.totalPages : Int)) → pageRangeInput n s = s) ∧
    (s.flipIndex + 1 = s.totalPages → nextCmd s = s) ∧
    (s.flipIndex = 0 → prevCmd s = s) := by
  refine ⟨?_, ?_, ?_, ?_⟩
  · rintro ⟨h1, h2⟩
    simp only [pageRangeInput, hpf, h1, h2, and_self, if_pos, true_and, flipTo]
    omega
  · intro h
    rw [pageRangeInput, if_neg]
    rintro ⟨_, hh1, hh2⟩
    exact h ⟨hh1, hh2⟩
  · intro h3
    rw [nextCmd, if_pos hpf, flipNext, if_neg]
    omega
  · intro h4
    rw [prevCmd, if_pos hpf, flipPrev, if_neg]
    omega

/-- Witness for C2_amended_goToPage: on a one-page document, goToPage 1
drives the animator to index 0, goToPage 5 is ignored, and both next and
previous are boundary no-ops. -/
theorem C2_amended_witness :
    (c2WSt.pageFlip = true ∧
     (1 ≤ (1 : Int) ∧ (1 : Int) ≤ (c2WSt.totalPages : Int)) ∧
     ¬(1 ≤ (5 : Int) ∧ (5 : Int) ≤ (c2WSt.totalPages : Int)) ∧
     c2WSt.flipIndex + 1 = c2WSt.totalPages ∧ c2WSt.flipIndex = 0) ∧
    ((pageRangeInput 1 c2WSt).flipIndex = ((1 : Int) - 1).toNat ∧
     pageRangeInput 5 c2WSt = c2WSt ∧
     nextCmd c2WSt = c2WSt ∧
     prevCmd c2WSt = c2WSt) :=
  ⟨by decide,
   (C2_amended_goToPage 1 c2WSt (by decide)).1 (by decide),
   (C2_amended_goToPage 5 c2WSt (by decide)).2.1 (by decide),
   (C2_amended_goToPage 5 c2WSt (by decide)).2.2.1 (by decide),
   (C2_amended_goToPage 5 c2WSt (by decide)).2.2.2 (by decide)⟩

/-- C3: the claim states that the end handler never advances when the end
was caused by stop or cancel.  Concretely, while speaking page 2 of 5,
stopTTS cancels the engine and resets paused to false; when the cancelled
utterance then delivers its end event, the handler sees paused = false and
a live animator, advances the animator from index 1 to 2 and schedules a
narration restart of page 3 at offset 0 — a page advance caused by stop,
proving the claim false at an explicit input. -/
theorem C3_counterexample :
    c3St.flipIndex = 1 ∧
    (stopTTS c3St).paused = false ∧
    (onEnd 2 (stopTTS c3St)).flipIndex = 2 ∧
    (onEnd 2 (stopTTS c3St)).pendingStart = some (3, 0, SETTLE_DELAY_END) := by decide

/-- C3 (amended): the end handler discriminates only on the paused flag and
the animator.  An end delivered while paused is ignored outright; an end
delivered while unpaused with page below the last and a live animator
advances the animator one step and schedules a restart of the next page at
offset 0 after the fixed settle delay — even when the end follows a stop,
since stop resets paused to false; an end at the last page returns the
state to idle with no advance. -/
theorem C3_amended_onEnd (p : Nat) (s : St) :
    (s.paused = true → onEnd p s = s) ∧
    (s.paused = false → p < s.totalPages → s.pageFlip = true → s.flipIndex + 1 < s.totalPages →
      (onEnd p s).flipIndex = s.flipIndex + 1 ∧
      (onEnd p s).pendingStart = some (p + 1, 0, SETTLE_DELAY_END) ∧
      (onEnd p s).speaking = false) ∧
    (s.paused = false → ¬ p < s.totalPages →
      onEnd p s = {s with speaking := false, paused := false}) ∧
    (s.speechSupported = true → s.pageFlip = true → p < s.totalPages →
      s.flipIndex + 1 < s.totalPages →
      (onEnd p (stopTTS s)).flipIndex = s.flipIndex + 1) := by
  refine ⟨?_, ?_, ?_, ?_⟩
  · intro hp
    simp [onEnd, hp]
  · intro hp hlt hpf hfl
    simp [onEnd, hp, hlt, hpf, flipNext, hfl]
  · intro hp hge
    simp [onEnd, hp, hge]
  · intro hsup hpf hlt hfl
    simp [stopTTS, hsup, onEnd, hlt, hpf, flipNext, hfl]

/-- Witness for C3_amended_onEnd on the concrete speaking state, with every
antecedent discharged. -/
theorem C3_amended_witness :
    (c3WSt.paused = false ∧ 2 < c3WSt.totalPages ∧ c3WSt.pageFlip = true ∧
     c3WSt.flipIndex + 1 < c3WSt.totalPages ∧ c3WSt.speechSupported = true) ∧
    (((onEnd 2 c3WSt).flipIndex = c3WSt.flipIndex + 1 ∧
      (onEnd 2 c3WSt).pendingStart = some (2 + 1, 0, SETTLE_DELAY_END) ∧
      (onEnd 2 c3WSt).speaking = false) ∧
     (onEnd 2 (stopTTS c3WSt)).flipIndex = c3WSt.flipIndex + 1) :=
  ⟨by decide,
   (C3_amended_onEnd 2 c3WSt).2.1 (by decide) (by decide) (by decide) (by decide),
   (C3_amended_onEnd 2 c3WSt).2.2.2 (by decide) (by decide) (by decide) (by decide)⟩

/-- C7: hideReader resets every piece of per-document session state: the
animator is destroyed and released, speech is cancelled and narration
returns to idle with offset 0, both caches and the render queue are
emptied, the document reference is dropped and the current page returns
to 1, so nothing survives into a reopened session. -/
theorem C7_close_resets (s : St) (hsup : s.speechSupported = true) :
    (hideReader s).pageFlip = false ∧
    (hideReader s).pdfDoc = none ∧
    (hideReader s).renderedPages = [] ∧
    (hideReader s).renderQueue = [] ∧
    (hideReader s).pageTextCache = [] ∧
    (hideReader s).currentPage = 1 ∧
    (hideReader s).speaking = false ∧
    (hideReader s).paused = false ∧
    (hideReader s).speakIndex = 0 ∧
    (hideReader s).uttText = none ∧
    (hideReader s).cancels = s.cancels + 1 := by
  by_cases hpf : s.pageFlip = true <;>
    simp [hideReader, stopTTS, hpf, hsup]

/-- Witness for C7_close_resets on a paused mid-book state. -/
theorem C7_witness :
    c7St.speechSupported = true ∧
    ((hideReader c7St).pageFlip = false ∧
     (hideReader c7St).pdfDoc = none ∧
     (hideReader c7St).renderedPages = [] ∧
     (hideReader c7St).renderQueue = [] ∧
     (hideReader c7St).pageTextCache = [] ∧
     (hideReader c7St).currentPage = 1 ∧
     (hideReader c7St).speaking = false ∧
     (hideReader c7St).paused = false ∧
     (hideReader c7St).speakIndex = 0 ∧
     (hideReader c7St).uttText = none ∧
     (hideReader c7St).cancels = c7St.cancels + 1) :=
  ⟨by decide, C7_close_resets c7St (by decide)⟩

/-- C8: from every narration state, stopTTS cancels the in-flight speech at
the engine and returns to idle with the resume offset reset to 0. -/
theorem C8_stop_idle (s : St) (hsup : s.speechSupported = true) :
    (stopTTS s).speaking = false ∧
    (stopTTS s).paused = false ∧
    (stopTTS s).speakIndex = 0 ∧
    (stopTTS s).cancels = s.cancels + 1 := by
  simp [stopTTS, hsup]

/-- Witness for C8_stop_idle on the concrete paused state. -/
theorem C8_witness :
    c7St.speechSupported = true ∧
    ((stopTTS c7St).speaking = false ∧
     (stopTTS c7St).paused = false ∧
     (stopTTS c7St).speakIndex = 0 ∧
     (stopTTS c7St).cancels = c7St.cancels + 1) :=
  ⟨by decide, C8_stop_idle c7St (by decide)⟩

/-- renderPage has exactly four behaviors: cache hit, missing document,
successful fetch-and-store, failed fetch. -/
theorem renderPage_cases (rsrc : Nat → Nat → Option Nat) (p : Nat) (s : St) :
    (renderPage rsrc p s = (lookupL p s.renderedPages, s) ∧
      (lookupL p s.renderedPages).isSome) ∨
    (renderPage rsrc p s = (none, s) ∧ s.pdfDoc = none ∧
      lookupL p s.renderedPages = none) ∨
    (∃ d a, s.pdfDoc = some d ∧ lookupL p s.renderedPages = none ∧ rsrc d p = some a ∧
      renderPage rsrc p s =
        (some a, {s with renderedPages := (p, a) :: s.renderedPages,
                         fetches := s.fetches + 1})) ∨
    (∃ d, s.pdfDoc = some d ∧ lookupL p s.renderedPages = none ∧ rsrc d p = none ∧
      renderPage rsrc p s = (none, {s with fetches := s.fetches + 1})) := by
  cases h1 : lookupL p s.renderedPages with
  | some v =>
    refine Or.inl ⟨?_, by simp [h1]⟩
    simp [renderPage, issueRender, h1]
  | none =>
    cases h2 : s.pdfDoc with
    | none =>
      refine Or.inr (Or.inl ⟨?_, rfl, rfl⟩)
      simp [renderPage, issueRender, h1, h2]
    | some d =>
      cases h3 : rsrc d p with
      | some a =>
        refine Or.inr (Or.inr (Or.inl ⟨d, a, rfl, rfl, h3, ?_⟩))
        simp [renderPage, issueRender, completeRender, h1, h2, h3, lookupL]
      | none =>
        refine Or.inr (Or.inr (Or.inr ⟨d, rfl, rfl, h3, ?_⟩))
        simp [renderPage, issueRender, completeRender, h1, h2, h3]

/-- renderPage leaves every field except renderedPages and fetches unchanged. -/
theorem renderPage_pres (rsrc : Nat → Nat → Option Nat) (p : Nat) (s : St) :
    ((renderPage rsrc p s).2).pdfDoc = s.pdfDoc ∧
    ((renderPage rsrc p s).2).currentPage = s.currentPage ∧
    ((renderPage rsrc p s).2).totalPages = s.totalPages ∧
    ((renderPage rsrc p s).2).speakIndex = s.speakIndex := by
  rcases renderPage_cases rsrc p s with ⟨he, _⟩ | ⟨he, _, _⟩ |
    ⟨d, a, _, _, _, he⟩ | ⟨d, _, _, _, he⟩ <;> rw [he] <;> exact ⟨rfl, rfl, rfl, rfl⟩

/-- renderPage never evicts: a cached page stays cached. -/
theorem renderPage_mono (rsrc : Nat → Nat → Option Nat) (p q : Nat) (s : St)
    (h : (lookupL q s.renderedPages).isSome) :
    (lookupL q ((renderPage rsrc p s).2).renderedPages).isSome := by
  rcases renderPage_cases rsrc p s with ⟨he, _⟩ | ⟨he, _, _⟩ |
    ⟨d, a, _, _, _, he⟩ | ⟨d, _, _, _, he⟩ <;> rw [he]
  · exact h
  · exact h
  · by_cases hq : q = p <;> simp [lookupL, hq, h]
  · exact h

/-- After renderPage on a page that is cached or fetchable, the page is cached. -/
theorem renderPage_hits (rsrc : Nat → Nat → Option Nat) (p d : Nat) (s : St)
    (hd : s.pdfDoc = some d)
    (hr : (lookupL p s.renderedPages).isSome ∨ (rsrc d p).isSome) :
    (lookupL p ((renderPage rsrc p s).2).renderedPages).isSome := by
  rcases renderPage_cases rsrc p s with ⟨he, hc⟩ | ⟨he, hn, _⟩ |
    ⟨d1, a, hd1, _, _, he⟩ | ⟨d1, hd1, hl, hr1, he⟩
  · rw [he]; exact hc
  · rw [hd] at hn; cases hn
  · rw [he]; simp [lookupL]
  · rw [hd1] at hd
    rcases hr with hc | hs
    · rw [hl] at hc; cases hc
    · rw [Option.some.injEq] at hd
      rw [← hd, hr1] at hs; cases hs

/-- The render fold of ensurePagesRendered preserves the non-cache fields. -/
theorem foldRender_pres (rsrc : Nat → Nat → Option Nat) :
    ∀ (l : List Nat) (s : St),
      ((l.foldl (fun st q => (renderPage rsrc q st).2) s).pdfDoc = s.pdfDoc) ∧
      ((l.foldl (fun st q => (renderPage rsrc q st).2) s).currentPage = s.currentPage) ∧
      ((l.foldl (fun st q => (renderPage rsrc q st).2) s).totalPages = s.totalPages) ∧
      ((l.foldl (fun st q => (renderPage rsrc q st).2) s).speakIndex = s.speakIndex) := by
  intro l
  induction l with
  | nil => exact fun s => ⟨rfl, rfl, rfl, rfl⟩
  | cons p l ih =>
    intro s
    have hp := renderPage_pres rsrc p s
    have ht := ih ((renderPage rsrc p s).2)
    simp only [List.foldl_cons]
    exact ⟨ht.1.trans hp.1, ht.2.1.trans hp.2.1,
           ht.2.2.1.trans hp.2.2.1, ht.2.2.2.trans hp.2.2.2⟩

/-- The render fold never evicts a cached page. -/
theorem foldRender_mono (rsrc : Nat → Nat → Option Nat) :
    ∀ (l : List Nat) (s : St) (q : Nat),
      (lookupL q s.renderedPages).isSome →
      (lookupL q ((l.foldl (fun st r => (renderPage rsrc r st).2) s)).renderedPages).isSome := by
  intro l
  induction l with
  | nil => exact fun s q h => h
  | cons p l ih =>
    intro s q h
    simp only [List.foldl_cons]
    exact ih ((renderPage rsrc p s).2) q (renderPage_mono rsrc p q s h)

/-- After the render fold, every listed page that was cached or fetchable is cached. -/
theorem foldRender_hits (rsrc : Nat → Nat → Option Nat) (d : Nat) :
    ∀ (l : List Nat) (s : St), s.pdfDoc = some d →
      (∀ q ∈ l, (lookupL q s.renderedPages).isSome ∨ (rsrc d q).isSome) →
      ∀ q ∈ l,
        (lookupL q ((l.foldl (fun st r => (renderPage rsrc r st).2) s)).renderedPages).isSome := by
  intro l
  induction l with
  | nil =>
    intro s _ _ q hq
    exact absurd hq (List.not_mem_nil q)
  | cons p l ih =>
    intro s hd hall q hq
    have hd1 : ((renderPage rsrc p s).2).pdfDoc = some d :=
      (renderPage_pres rsrc p s).1.trans hd
    simp only [List.foldl_cons]
    rcases List.mem_cons.mp hq with hq | hq
    · subst hq
      have hcached : (lookupL q ((renderPage rsrc q s).2).renderedPages).isSome :=
        renderPage_hits rsrc q d s hd (hall q (List.mem_cons_self q l))
      exact foldRender_mono rsrc l ((renderPage rsrc q s).2) q hcached
    · refine ih ((renderPage rsrc p s).2) hd1 ?_ q hq
      intro q1 hq1
      rcases hall q1 (List.mem_cons_of_mem p hq1) with hc | hs
      · exact Or.inl (renderPage_mono rsrc p q1 s hc)
      · exact Or.inr hs

/-- On a cached page, renderPage returns the stored artifact and leaves the
state untouched. -/
theorem renderPage_cached (rsrc : Nat → Nat → Option Nat) (p : Nat) (s : St)
    (hc : (lookupL p s.renderedPages).isSome) :
    renderPage rsrc p s = (lookupL p s.renderedPages, s) := by
  rcases renderPage_cases rsrc p s with ⟨he, _⟩ | ⟨_, _, hn⟩ |
    ⟨d, a, _, hn, _, _⟩ | ⟨d, _, hn, _, _⟩
  · exact he
  all_goals rw [hn] at hc; cases hc

/-- C4: rendering the same page twice performs at most one document-source
fetch: after the first call the artifact is resident, and the second call
returns exactly the stored artifact and leaves the state (in particular
the fetch counter) untouched.  The hypothesis says the open document can
produce the page, the case in which the first call stores an artifact (a
failed fetch is not cached and is retried, by design of the error
handling). -/
theorem C4_render_idempotent (rsrc : Nat → Nat → Option Nat) (p d : Nat) (s : St)
    (hd : s.pdfDoc = some d) (hr : (rsrc d p).isSome) :
    (renderPage rsrc p ((renderPage rsrc p s).2)).2 = (renderPage rsrc p s).2 ∧
    (renderPage rsrc p ((renderPage rsrc p s).2)).1 =
      lookupL p ((renderPage rsrc p s).2).renderedPages ∧
    (lookupL p ((renderPage rsrc p s).2).renderedPages).isSome ∧
    ((renderPage rsrc p s).2).fetches ≤ s.fetches + 1 := by
  have h1 : (lookupL p ((renderPage rsrc p s).2).renderedPages).isSome :=
    renderPage_hits rsrc p d s hd (Or.inr hr)
  have he2 := renderPage_cached rsrc p ((renderPage rsrc p s).2) h1
  refine ⟨by rw [he2], by rw [he2], h1, ?_⟩
  rcases renderPage_cases rsrc p s with ⟨he, _⟩ | ⟨_, hn, _⟩ |
    ⟨d1, a, _, _, _, he⟩ | ⟨d1, hd1, hl, hr1, he⟩
  · rw [he]; exact Nat.le_succ _
  · rw [hd] at hn; cases hn
  · rw [he]
  · rw [hd1] at hd
    rw [Option.some.injEq] at hd
    rw [← hd, hr1] at hr
    cases hr

/-- Witness for C4_render_idempotent: page 6 of the open 10-page document. -/
theorem C4_witness :
    (c4St.pdfDoc = some 1 ∧ (srcN 1 6).isSome) ∧
    ((renderPage srcN 6 ((renderPage srcN 6 c4St).2)).2 = (renderPage srcN 6 c4St).2 ∧
     (renderPage srcN 6 ((renderPage srcN 6 c4St).2)).1 =
       lookupL 6 ((renderPage srcN 6 c4St).2).renderedPages ∧
     (lookupL 6 ((renderPage srcN 6 c4St).2).renderedPages).isSome ∧
     ((renderPage srcN 6 c4St).2).fetches ≤ c4St.fetches + 1) :=
  ⟨by decide, C4_render_idempotent srcN 6 1 c4St (by decide) (by decide)⟩

/-- C5: after ensurePagesRendered on a page p of the document, every page of
the neighborhood of p clamped to the document range holds a resident
artifact (the code has a single quality level, the standard render scale).
The source hypothesis says each neighborhood page is already cached or can
be produced by the open document. -/
theorem C5_neighborhood (rsrc : Nat → Nat → Option Nat) (p d : Nat) (s : St)
    (_hp1 : 1 ≤ p) (_hp2 : p ≤ s.totalPages) (hd : s.pdfDoc = some d)
    (hsrc : ∀ q, q < min s.totalPages (p + 1) + 1 → max 1 (p - 1) ≤ q →
      ((lookupL q s.renderedPages).isSome ∨ (rsrc d q).isSome)) :
    ∀ q, q < min s.totalPages (p + 1) + 1 → max 1 (p - 1) ≤ q →
      (lookupL q (ensurePagesRendered rsrc p s).renderedPages).isSome := by
  intro q hqU hqL
  unfold ensurePagesRendered
  by_cases hc : (lookupL q s.renderedPages).isSome
  · exact foldRender_mono rsrc (pagesToRender p s) s q hc
  · have hqmem : q ∈ pagesToRender p s := by
      unfold pagesToRender
      rw [List.mem_filter]
      constructor
      · rw [List.mem_range'_1]
        omega
      · rw [Option.isNone_iff_eq_none]
        exact Option.not_isSome_iff_eq_none.mp hc
    refine foldRender_hits rsrc d (pagesToRender p s) s hd ?_ q hqmem
    intro q1 hq1
    have hmem := List.mem_filter.mp hq1
    have hrange := List.mem_range'_1.mp hmem.1
    exact hsrc q1 (by omega) (by omega)

/-- Witness for C5_neighborhood: page 1 of the open 10-page document with an
empty cache; the clamped neighborhood is pages 1 and 2. -/
theorem C5_witness :
    (1 ≤ 1 ∧ 1 ≤ c4St.totalPages ∧ c4St.pdfDoc = some 1 ∧
     (∀ q, q < min c4St.totalPages (1 + 1) + 1 → max 1 (1 - 1) ≤ q →
       ((lookupL q c4St.renderedPages).isSome ∨ (srcN 1 q).isSome))) ∧
    (∀ q, q < min c4St.totalPages (1 + 1) + 1 → max 1 (1 - 1) ≤ q →
      (lookupL q (ensurePagesRendered srcN 1 c4St).renderedPages).isSome) :=
  ⟨by decide,
   C5_neighborhood srcN 1 1 c4St (by decide) (by decide) (by decide) (by decide)⟩

/-- flipNext changes only the animator index. -/
theorem flipNext_pres (s : St) :
    (flipNext s).speakIndex = s.speakIndex ∧
    (flipNext s).currentPage = s.currentPage ∧
    (flipNext s).totalPages = s.totalPages := by
  unfold flipNext
  split <;> exact ⟨rfl, rfl, rfl⟩

/-- extractPageText changes only the text cache. -/
theorem extract_pres (tsrc : Nat → Nat → Option JSStr) (p : Nat) (s : St) :
    ((extractPageText tsrc p s).2).speakIndex = s.speakIndex ∧
    ((extractPageText tsrc p s).2).currentPage = s.currentPage ∧
    ((extractPageText tsrc p s).2).totalPages = s.totalPages ∧
    ((extractPageText tsrc p s).2).speechSupported = s.speechSupported ∧
    ((extractPageText tsrc p s).2).pageFlip = s.pageFlip ∧
    ((extractPageText tsrc p s).2).flipIndex = s.flipIndex := by
  unfold extractPageText
  repeat' split
  all_goals exact ⟨rfl, rfl, rfl, rfl, rfl, rfl⟩

/-- startTTSForPage changes none of speakIndex, currentPage and totalPages:
starting narration never moves the tracked page or the saved resume offset. -/
theorem startTTS_pres (tsrc : Nat → Nat → Option JSStr) (pageNum startIndex : Nat) (s : St) :
    (startTTSForPage tsrc pageNum startIndex s).speakIndex = s.speakIndex ∧
    (startTTSForPage tsrc pageNum startIndex s).currentPage = s.currentPage ∧
    (startTTSForPage tsrc pageNum startIndex s).totalPages = s.totalPages := by
  rcases hpair : extractPageText tsrc pageNum s with ⟨text, s1⟩
  have hx := extract_pres tsrc pageNum s
  rw [hpair] at hx
  simp only [startTTSForPage, hpair]
  by_cases h0 : s.speechSupported = false
  · rw [if_pos h0]
    exact ⟨rfl, rfl, rfl⟩
  · rw [if_neg h0]
    by_cases h1 : text = []
    · rw [if_pos h1]
      exact ⟨hx.1, hx.2.1, hx.2.2.1⟩
    · rw [if_neg h1]
      by_cases h2 : text.drop startIndex = []
      · rw [if_pos h2]
        by_cases h3 : pageNum < s1.totalPages ∧ s1.pageFlip = true
        · rw [if_pos h3]
          exact ⟨(flipNext_pres s1).1.trans hx.1,
                 (flipNext_pres s1).2.1.trans hx.2.1,
                 (flipNext_pres s1).2.2.trans hx.2.2.1⟩
        · rw [if_neg h3]
          exact ⟨hx.1, hx.2.1, hx.2.2.1⟩
      · rw [if_neg h2]
        exact ⟨hx.1, hx.2.1, hx.2.2.1⟩

/-- The render fold of ensurePagesRendered preserves currentPage, totalPages
and speakIndex. -/
theorem ensure_pres (rsrc : Nat → Nat → Option Nat) (c : Nat) (s : St) :
    (ensurePagesRendered rsrc c s).currentPage = s.currentPage ∧
    (ensurePagesRendered rsrc c s).totalPages = s.totalPages ∧
    (ensurePagesRendered rsrc c s).speakIndex = s.speakIndex := by
  have h := foldRender_pres rsrc (pagesToRender c s) s
  exact ⟨h.2.1, h.2.2.1, h.2.2.2⟩

/-- After the flip handler, the tracked current page equals the reported
index plus one, clamped to the page count. -/
theorem onFlip_currentPage (rsrc : Nat → Nat → Option Nat) (tsrc : Nat → Nat → Option JSStr)
    (idx : Nat) (s : St) :
    (onFlip rsrc tsrc idx s).currentPage = min s.totalPages (idx + 1) := by
  simp only [onFlip]
  split
  · exact (startTTS_pres tsrc _ 0 _).2.1.trans (ensure_pres rsrc _ _).1
  · exact (ensure_pres rsrc _ _).1

/-- The flip handler never changes the saved narration offset. -/
theorem onFlip_speakIndex (rsrc : Nat → Nat → Option Nat) (tsrc : Nat → Nat → Option JSStr)
    (idx : Nat) (s : St) :
    (onFlip rsrc tsrc idx s).speakIndex = s.speakIndex := by
  simp only [onFlip]
  split
  · exact (startTTS_pres tsrc _ 0 _).1.trans (ensure_pres rsrc _ _).2.2
  · exact (ensure_pres rsrc _ _).2.2

/-- C9: after any flip event the tracked current page lies in the interval
from 1 to totalPages (the handler clamps the reported index), and
ensurePagesRendered only ever selects pages inside that interval. -/
theorem C9_page_bounds (rsrc : Nat → Nat → Option Nat) (tsrc : Nat → Nat → Option JSStr)
    (idx c : Nat) (s : St) (hT : 1 ≤ s.totalPages) :
    (1 ≤ (onFlip rsrc tsrc idx s).currentPage ∧
     (onFlip rsrc tsrc idx s).currentPage ≤ s.totalPages) ∧
    (∀ i ∈ pagesToRender c s, 1 ≤ i ∧ i ≤ s.totalPages) := by
  constructor
  · rw [onFlip_currentPage]
    omega
  · intro i hi
    unfold pagesToRender at hi
    have hmem := List.mem_filter.mp hi
    have hrange := List.mem_range'_1.mp hmem.1
    omega

/-- Witness for C9_page_bounds: a flip event reporting index 15 on the open
10-page document lands on page 10, and the neighborhood of page 1 stays in
range. -/
theorem C9_witness :
    1 ≤ c4St.totalPages ∧
    ((1 ≤ (onFlip srcN txtN 15 c4St).currentPage ∧
      (onFlip srcN txtN 15 c4St).currentPage ≤ c4St.totalPages) ∧
     (∀ i ∈ pagesToRender 1 c4St, 1 ≤ i ∧ i ≤ c4St.totalPages)) :=
  ⟨by decide, C9_page_bounds srcN txtN 15 1 c4St (by decide)⟩

/-- C10: the saved narration offset speakIndex is untouched by flip events
and by the play toggle, and reset to 0 by stop and by closing the reader;
consequently the play toggle from idle starts the utterance at the saved
offset into the text of the page that is current at that moment: its
request covers the current page text from that (possibly stale) offset. -/
theorem C10_stale_offset (rsrc : Nat → Nat → Option Nat) (tsrc : Nat → Nat → Option JSStr)
    (idx : Nat) (s : St) (text : JSStr)
    (hsup : s.speechSupported = true) (hidle : s.speaking = false)
    (hcache : lookupL s.currentPage s.pageTextCache = some text)
    (hne : ¬ text = []) (hrem : ¬ text.drop s.speakIndex = []) :
    (onFlip rsrc tsrc idx s).speakIndex = s.speakIndex ∧
    (toggleTTS tsrc s).speakIndex = s.speakIndex ∧
    (toggleTTS tsrc s).uttText = some (text.drop s.speakIndex) ∧
    (toggleTTS tsrc s).uttStartIndex = s.speakIndex ∧
    (toggleTTS tsrc s).speaking = true ∧
    (stopTTS s).speakIndex = 0 ∧
    (hideReader s).speakIndex = 0 := by
  have hns : ¬ s.speechSupported = false := by simp [hsup]
  have htog : toggleTTS tsrc s = startTTSForPage tsrc s.currentPage s.speakIndex s := by
    unfold toggleTTS
    rw [if_neg hns, if_pos hidle]
  have hstt : startTTSForPage tsrc s.currentPage s.speakIndex s =
      {s with cancels := s.cancels + 1,
              uttText := some (text.drop s.speakIndex),
              uttStartIndex := s.speakIndex,
              speaking := true, paused := false} := by
    simp only [startTTSForPage, extractPageText, hcache]
    rw [if_neg hns, if_neg hne, if_neg hrem]
  refine ⟨onFlip_speakIndex rsrc tsrc idx s, ?_, ?_, ?_, ?_, ?_, ?_⟩
  · rw [htog, hstt]
  · rw [htog, hstt]
  · rw [htog, hstt]
  · rw [htog, hstt]
  · unfold stopTTS
    rw [if_neg hns]
  · by_cases hpf : s.pageFlip = true <;> simp [hideReader, stopTTS, hpf, hns]

/-- Witness for C10_stale_offset: idle on page 2 with the stale offset 12
saved from an earlier page; play starts page 2 at character 12. -/
theorem C10_witness :
    (c10St.speechSupported = true ∧ c10St.speaking = false ∧
     lookupL c10St.currentPage c10St.pageTextCache = some ("abcdefghijklmnopqrst".toList) ∧
     ¬ ("abcdefghijklmnopqrst".toList : JSStr) = [] ∧
     ¬ ("abcdefghijklmnopqrst".toList : JSStr).drop c10St.speakIndex = []) ∧
    ((onFlip srcN txtN 4 c10St).speakIndex = c10St.speakIndex ∧
     (toggleTTS txtN c10St).speakIndex = c10St.speakIndex ∧
     (toggleTTS txtN c10St).uttText = some (("abcdefghijklmnopqrst".toList : JSStr).drop c10St.speakIndex) ∧
     (toggleTTS txtN c10St).uttStartIndex = c10St.speakIndex ∧
     (toggleTTS txtN c10St).speaking = true ∧
     (stopTTS c10St).speakIndex = 0 ∧
     (hideReader c10St).speakIndex = 0) :=
  ⟨by decide,
   C10_stale_offset srcN txtN 4 c10St ("abcdefghijklmnopqrst".toList)
     (by decide) (by decide) (by decide) (by decide) (by decide)⟩

/-- The boundary handler always fires its guard: it sets speakIndex to the
utterance start index plus the reported character index. -/
theorem onBoundary_eq (nw : Bool) (i : Nat) (s : St) :
    onBoundary nw i s = {s with speakIndex := s.uttStartIndex + i} := by
  unfold onBoundary
  rw [if_pos (Or.inr (Nat.zero_le i))]

/-- A run of boundary events only rewrites speakIndex. -/
theorem bfold_shape : ∀ (l : List Nat) (s : St),
    ∃ n, l.foldl (fun st i => onBoundary false i st) s = {s with speakIndex := n} := by
  intro l
  induction l with
  | nil => exact fun s => ⟨s.speakIndex, rfl⟩
  | cons i l ih =>
    intro s
    obtain ⟨n, hn⟩ := ih (onBoundary false i s)
    refine ⟨n, ?_⟩
    rw [List.foldl_cons, hn, onBoundary_eq]

/-- After a run of boundary events ending in index k, the saved offset is
exactly the utterance start index plus k. -/
theorem bfold_last (l : List Nat) (k : Nat) (s : St) :
    (l ++ [k]).foldl (fun st i => onBoundary false i st) s =
      {s with speakIndex := s.uttStartIndex + k} := by
  rw [List.foldl_append]
  obtain ⟨n, hn⟩ := bfold_shape l s
  rw [hn]
  simp only [List.foldl_cons, List.foldl_nil]
  rw [onBoundary_eq]

/-- C6: with an utterance started at offset f, boundary events reporting
indices i1 .. ik leave the saved resume offset at f + ik after pause, and
when the engine has dropped its paused utterance, the resume toggle issues
a new speech request whose text is exactly the page text from offset f + ik
on — the suffix obtained by also dropping the k already-spoken characters
of the original remainder, so the spoken prefix is never re-spoken. -/
theorem C6_pause_resume (tsrc : Nat → Nat → Option JSStr) (f k : Nat) (evs : List Nat)
    (text : JSStr) (s : St)
    (hsup : s.speechSupported = true) (hspk : s.speaking = true) (hps : s.paused = false)
    (hstart : s.uttStartIndex = f)
    (hcache : lookupL s.currentPage s.pageTextCache = some text)
    (hne : ¬ text = []) (hrem : ¬ text.drop (f + k) = []) :
    (toggleTTS tsrc ((evs ++ [k]).foldl (fun st i => onBoundary false i st) s)).speakIndex
      = f + k ∧
    (toggleTTS tsrc (engineLosesPause (toggleTTS tsrc
        ((evs ++ [k]).foldl (fun st i => onBoundary false i st) s)))).uttText
      = some (text.drop (f + k)) ∧
    (toggleTTS tsrc (engineLosesPause (toggleTTS tsrc
        ((evs ++ [k]).foldl (fun st i => onBoundary false i st) s)))).uttStartIndex
      = f + k ∧
    (toggleTTS tsrc (engineLosesPause (toggleTTS tsrc
        ((evs ++ [k]).foldl (fun st i => onBoundary false i st) s)))).speaking = true ∧
    (toggleTTS tsrc (engineLosesPause (toggleTTS tsrc
        ((evs ++ [k]).foldl (fun st i => onBoundary false i st) s)))).paused = false ∧
    text.drop (f + k) = (text.drop f).drop k := by
  have hns : ¬ s.speechSupported = false := by simp [hsup]
  subst hstart
  have hb := bfold_last evs k s
  rw [hb]
  have ht1 : toggleTTS tsrc {s with speakIndex := s.uttStartIndex + k} =
      {s with speakIndex := s.uttStartIndex + k, engPaused := true, paused := true} := by
    unfold toggleTTS
    rw [if_neg hns,
        if_neg (show ¬ ({s with speakIndex := s.uttStartIndex + k} : St).speaking = false by simp [hspk]),
        if_pos (show ({s with speakIndex := s.uttStartIndex + k} : St).paused = false from hps)]
  rw [ht1]
  rw [show engineLosesPause {s with speakIndex := s.uttStartIndex + k, engPaused := true, paused := true} =
      {s with speakIndex := s.uttStartIndex + k, engPaused := false, paused := true} from rfl]
  have htogA : toggleTTS tsrc {s with speakIndex := s.uttStartIndex + k, engPaused := false, paused := true} =
      {startTTSForPage tsrc s.currentPage (s.uttStartIndex + k)
        {s with speakIndex := s.uttStartIndex + k, engPaused := false, paused := true} with paused := false} := by
    unfold toggleTTS
    rw [if_neg hns,
        if_neg (show ¬ ({s with speakIndex := s.uttStartIndex + k, engPaused := false, paused := true} : St).speaking = false by simp [hspk]),
        if_neg (show ¬ ({s with speakIndex := s.uttStartIndex + k, engPaused := false, paused := true} : St).paused = false by simp),
        if_neg (show ¬ ({s with speakIndex := s.uttStartIndex + k, engPaused := false, paused := true} : St).engPaused = true by simp)]
  rw [htogA]
  have hstt2 : startTTSForPage tsrc s.currentPage (s.uttStartIndex + k)
      {s with speakIndex := s.uttStartIndex + k, engPaused := false, paused := true} =
      {s with speakIndex := s.uttStartIndex + k, engPaused := false, paused := false,
              cancels := s.cancels + 1, uttText := some (text.drop (s.uttStartIndex + k)),
              uttStartIndex := s.uttStartIndex + k, speaking := true} := by
    simp only [startTTSForPage, extractPageText]
    rw [show lookupL s.currentPage ({s with speakIndex := s.uttStartIndex + k, engPaused := false, paused := true} : St).pageTextCache = some text from hcache]
    rw [if_neg hns, if_neg hne, if_neg hrem]
  rw [hstt2]
  exact ⟨rfl, rfl, rfl, rfl, rfl, (List.drop_drop k s.uttStartIndex text).symm⟩

/-- Witness for C6_pause_resume: an utterance of page 1 started at offset 2,
boundaries 0, 3, 5; the resumed request covers the page text from
character 7 on. -/
theorem C6_witness :
    (c6St.speechSupported = true ∧ c6St.speaking = true ∧ c6St.paused = false ∧
     c6St.uttStartIndex = 2 ∧
     lookupL c6St.currentPage c6St.pageTextCache = some ("abcdefghij".toList) ∧
     ¬ ("abcdefghij".toList : JSStr) = [] ∧
     ¬ ("abcdefghij".toList : JSStr).drop (2 + 5) = []) ∧
    ((toggleTTS txtN (([0, 3] ++ [5]).foldl (fun st i => onBoundary false i st) c6St)).speakIndex
       = 2 + 5 ∧
     (toggleTTS txtN (engineLosesPause (toggleTTS txtN
         (([0, 3] ++ [5]).foldl (fun st i => onBoundary false i st) c6St)))).uttText
       = some (("abcdefghij".toList : JSStr).drop (2 + 5)) ∧
     (toggleTTS txtN (engineLosesPause (toggleTTS txtN
         (([0, 3] ++ [5]).foldl (fun st i => onBoundary false i st) c6St)))).uttStartIndex
       = 2 + 5 ∧
     (toggleTTS txtN (engineLosesPause (toggleTTS txtN
         (([0, 3] ++ [5]).foldl (fun st i => onBoundary false i st) c6St)))).speaking = true ∧
     (toggleTTS txtN (engineLosesPause (toggleTTS txtN
         (([0, 3] ++ [5]).foldl (fun st i => onBoundary false i st) c6St)))).paused = false ∧
     ("abcdefghij".toList : JSStr).drop (2 + 5) =
       (("abcdefghij".toList : JSStr).drop 2).drop 5) :=
  ⟨by decide,
   C6_pause_resume txtN 2 5 [0, 3] ("abcdefghij".toList) c6St
     (by decide) (by decide) (by decide) (by decide) (by decide) (by decide) (by decide)⟩

end KindleBook
